import Mathlib

/-!
Shallow embedding of the BBombsBot moderation core
(`src/models/ratelimiter.py`, `src/models/safebrowsing.py`,
`src/models/automod.py`) together with theorems checking the
natural-language specification against it.

Modelling conventions:
* Python `float` monotonic timestamps and timespans are modelled as `Int`
  (integral ticks; every time constant of the moderation core is an integral
  number of seconds, and none of the checked properties involves fractional
  time).
* Python `None` / hikari `UNDEFINED` are modelled as `Option.none`; Python
  truthiness of the relevant values is embedded explicitly (`pyTruthy…`).
* Exceptions are modelled with `Except String`; the string names the Python
  exception raised at that source location.
* Side effects on external collaborators (message deletion, strike
  persistence, DM notices, timeouts, rate-limiter recording) are logged in an
  explicit effect list, mirroring the exact call sites in the source.
* asyncio: within a synchronous stretch of a coroutine (no `await`), spawned
  tasks do not run; this is embedded by separating the synchronous part of an
  operation from the later run of its background task.
-/

/-- Python truthiness of an optional integer id (hikari `Snowflake | None`):
`None` is falsy, and the integer `0` is falsy as well. -/
def pyTruthyOptNat (o : Option Nat) : Bool :=
  match o with
  | none => false
  | some n => n != 0

/-- Python truthiness of an optional string (`str | None` or hikari
`UndefinedOr[str]`): `None`/UNDEFINED and the empty string are falsy. -/
def pyTruthyOptStr (o : Option String) : Bool :=
  match o with
  | none => false
  | some s => s != ""

/-! ## RateLimiter (src/models/ratelimiter.py) -/

/-- Configuration held by a `RateLimiterBucket`: `timespan` (seconds after
which the amount of requests resets) and `count` (requests allowed per
timespan), plus `message_queue_size` of `MessageRateLimiter`. -/
structure Bucket where
  timespan : Int
  count : Int
  message_queue_size : Nat
deriving DecidableEq, Repr

/-- State of one `RateLimiter` (per-key limiter of `ratelimiter.py`).
`request_queue` keeps only the length of the deque of opaque `Request`
objects; `task_active` embeds `queue_task is not None`. -/
structure RateLimiter where
  reset_at : Int
  remaining_requests : Int
  request_queue : Nat
  task_active : Bool
deriving DecidableEq, Repr

/-- `RateLimiter.get_instance`: a fresh limiter for a bucket, created at
monotonic time `now`, seeded with `remaining_requests = count + 1`. -/
def RateLimiter.get_instance (b : Bucket) (now : Int) : RateLimiter :=
  { reset_at := now + b.timespan
    remaining_requests := b.count + 1
    request_queue := 0
    task_active := false }

/-- `RateLimiter.reset`: set `reset_at = now + timespan` and
`remaining_requests = count`. -/
def RateLimiter.reset_rl (b : Bucket) (rl : RateLimiter) (now : Int) : RateLimiter :=
  { rl with reset_at := now + b.timespan, remaining_requests := b.count }

/-- The `while self.remaining_requests > 0 and self.request_queue:` loop of
`RateLimiter._run_queue`: repeatedly decrement `remaining_requests` and pop
one queued request. Returns the final (remaining, queue length). -/
def drainQueue : Int → Nat → Int × Nat
  | r, 0 => (r, 0)
  | r, q + 1 => if 0 < r then drainQueue (r - 1) q else (r, q + 1)

/-- `RateLimiter._run_queue` run to completion, started at time `now`.
If the limiter is exhausted and the window has not lapsed the task sleeps
until `reset_at` (the returned time is the completion time, idealising the
wake-up as happening exactly at `reset_at`), resets, then drains; if the
window has lapsed it resets and drains; otherwise it just drains. The task
ends by clearing `queue_task`. -/
def RateLimiter.run_queue (b : Bucket) (rl : RateLimiter) (now : Int) : RateLimiter × Int :=
  if rl.remaining_requests ≤ 0 ∧ now < rl.reset_at then
    let wake := rl.reset_at
    let rl := rl.reset_rl b wake
    let d := drainQueue rl.remaining_requests rl.request_queue
    ({ rl with remaining_requests := d.1, request_queue := d.2, task_active := false }, wake)
  else if rl.reset_at ≤ now then
    let rl := rl.reset_rl b now
    let d := drainQueue rl.remaining_requests rl.request_queue
    ({ rl with remaining_requests := d.1, request_queue := d.2, task_active := false }, now)
  else
    let d := drainQueue rl.remaining_requests rl.request_queue
    ({ rl with remaining_requests := d.1, request_queue := d.2, task_active := false }, now)

/-- The synchronous part of `RateLimiterBucket.add` on an existing limiter:
append one `Request` to the queue, then `start()` (which only marks a queue
task as scheduled; it does not run it inside the current synchronous
stretch). -/
def RateLimiter.add_request (rl : RateLimiter) : RateLimiter :=
  { rl with request_queue := rl.request_queue + 1, task_active := true }

/-- One abstract `record` operation of the spec: `add` followed by the
spawned `_run_queue` task running to completion before the next operation
(cooperative scheduling between message events). -/
def RateLimiter.record_settled (b : Bucket) (rl : RateLimiter) (now : Int) : RateLimiter :=
  (RateLimiter.run_queue b rl.add_request now).1

/-- Iterate `record_settled` n times at a fixed time. -/
def RateLimiter.recordN (b : Bucket) : Nat → RateLimiter → Int → RateLimiter
  | 0, rl, _ => rl
  | n + 1, rl, now => RateLimiter.record_settled b (RateLimiter.recordN b n rl now) now

/-- The limiter-level test of `RateLimiterBucket.is_rate_limited`, applied to
the limiter obtained for the context: `False` once the window has lapsed,
`True` when the window is live and `remaining_requests <= 0`. -/
def RateLimiter.is_limited (rl : RateLimiter) (now : Int) : Bool :=
  if rl.reset_at ≤ now then false
  else if rl.remaining_requests ≤ 0 then true
  else false

/-! ### Bucket-level state (`MessageRateLimiter`) -/

/-- A hikari mention (`message.user_mentions` value): user id and bot flag. -/
structure Mention where
  id : Nat
  is_bot : Bool
deriving DecidableEq, Repr

/-- A hikari `PartialMessage` restricted to the fields the moderation core
reads. `author`/`guild_id` are `none` when missing/undefined. -/
structure MsgCtx where
  id : Nat
  channel_id : Nat
  author : Option Nat
  guild_id : Option Nat
  content : Option String
  attachments : List Nat
  user_mentions : List Mention
deriving DecidableEq, Repr

/-- Mutable state of one `MessageRateLimiter` bucket: the key → limiter map
and the key → bounded message-snowflake deque map. -/
structure BucketState where
  rate_limiters : List (String × RateLimiter)
  message_queue : List (String × List Nat)
deriving DecidableEq, Repr

/-- Association-list lookup (Python dict read). -/
def assocGet {α : Type} (m : List (String × α)) (k : String) : Option α :=
  (m.find? (fun p => p.1 == k)).map Prod.snd

/-- Association-list update (Python dict write, insertion order kept for
existing keys). -/
def assocSet {α : Type} (m : List (String × α)) (k : String) (v : α) : List (String × α) :=
  match m with
  | [] => [(k, v)]
  | (k', v') :: rest => if k' == k then (k, v) :: rest else (k', v') :: assocSet rest k v

/-- `MessageRateLimiter._get_key`: raises `ValueError` when the context has a
falsy author or guild id, otherwise `str(guild_id) + "-" + str(author.id)`. -/
def MessageRateLimiter.get_key (ctx : MsgCtx) : Except String String :=
  if ctx.author.isNone || !pyTruthyOptNat ctx.guild_id then
    Except.error "ValueError: context missing required parameters"
  else
    match ctx.author, ctx.guild_id with
    | some a, some g => Except.ok (toString g ++ "-" ++ toString a)
    | _, _ => Except.error "ValueError: context missing required parameters"

/-- `RateLimiterBucket._get_ratelimiter`: `setdefault` of a fresh
`get_instance` under the context's key. Returns the updated map and the
limiter found or created. -/
def MessageRateLimiter.get_ratelimiter (b : Bucket) (st : BucketState) (ctx : MsgCtx)
    (now : Int) : Except String (BucketState × RateLimiter) := do
  let key ← MessageRateLimiter.get_key ctx
  match assocGet st.rate_limiters key with
  | some rl => Except.ok (st, rl)
  | none =>
      let rl := RateLimiter.get_instance b now
      Except.ok ({ st with rate_limiters := assocSet st.rate_limiters key rl }, rl)

/-- `RateLimiterBucket.is_rate_limited` for a message context (creates the
limiter when absent, like the source's `setdefault`). -/
def MessageRateLimiter.is_rate_limited (b : Bucket) (st : BucketState) (ctx : MsgCtx)
    (now : Int) : Except String (BucketState × Bool) := do
  let (st, rl) ← MessageRateLimiter.get_ratelimiter b st ctx now
  Except.ok (st, rl.is_limited now)

/-- Append to a `deque(maxlen = n)`: the oldest entries are evicted from the
left once the length exceeds `n`. -/
def pushBounded (n : Nat) (q : List Nat) (x : Nat) : List Nat :=
  let q := q ++ [x]
  q.drop (q.length - n)

/-- `RateLimiterBucket.add` (synchronous part): get or create the limiter,
append one request, `start()` the queue task. -/
def MessageRateLimiter.add (b : Bucket) (st : BucketState) (ctx : MsgCtx)
    (now : Int) : Except String BucketState := do
  let (st, rl) ← MessageRateLimiter.get_ratelimiter b st ctx now
  let key ← MessageRateLimiter.get_key ctx
  Except.ok { st with rate_limiters := assocSet st.rate_limiters key rl.add_request }

/-- `MessageRateLimiter.add_message`: `add`, then, when the bucket keeps a
message queue, append the message snowflake to the key's bounded deque. -/
def MessageRateLimiter.add_message (b : Bucket) (st : BucketState) (ctx : MsgCtx)
    (now : Int) : Except String BucketState := do
  let st ← MessageRateLimiter.add b st ctx now
  if 0 < b.message_queue_size then
    let key ← MessageRateLimiter.get_key ctx
    let q := (assocGet st.message_queue key).getD []
    Except.ok { st with message_queue := assocSet st.message_queue key (pushBounded b.message_queue_size q ctx.id) }
  else
    Except.ok st

/-- `MessageRateLimiter.get_messages`: the key's message queue as a list, or
`none` on `KeyError`. -/
def MessageRateLimiter.get_messages (st : BucketState) (ctx : MsgCtx) :
    Except String (Option (List Nat)) := do
  let key ← MessageRateLimiter.get_key ctx
  Except.ok (assocGet st.message_queue key)

/-! ## Levenshtein distance (the `Levenshtein.distance` import of automod.py) -/

/-- Standard Levenshtein edit distance (unit-cost insert/delete/substitute),
as computed by the `Levenshtein.distance` function used in
`AutoMod.find_duplicate_spam`. -/
def lev : List Char → List Char → Nat
  | [], ys => ys.length
  | x :: xs, [] => (x :: xs).length
  | x :: xs, y :: ys =>
      if x = y then lev xs ys
      else 1 + min (lev xs ys) (min (lev xs (y :: ys)) (lev (x :: xs) ys))
termination_by a b => (a.length, b.length)

/-! ## AutoMod (src/models/automod.py) -/

/-- The classifier kinds, in the fixed order of `AutoMod.check`'s
create-message branch. -/
inductive CKind
  | messageRate | duplicateContent | inviteSpam | linkSpam | attachmentSpam
  | mentionSpam | unsafeLink | blockedInvite | fakeHyperlink | excessMentions
deriving DecidableEq, Repr

/-- `AutoModOffenceType`. -/
inductive OffenceType
  | spam | blocked
deriving DecidableEq, Repr

/-- `AutoModMediaType` (the values `moderate` is called with). -/
inductive MediaType
  | mention | invite | link | hyperlink | attachment | duplicate | message
deriving DecidableEq, Repr

/-- Side effects on external collaborators, logged at their exact call sites:
`record b id` for a `add_message` call on bucket `b`, `deleteMsg` for
`message.delete()`, `deleteBulk` for `rest.delete_messages`, `persist` for
`DatabaseMember.update()`, `notice` for `mod.notice`, `timeout` for
`mod.timeout` (with the absolute expiry timestamp). -/
inductive Effect
  | record (b : MediaType) (msgId : Nat)
  | deleteMsg (id : Nat)
  | deleteBulk (channel : Nat) (ids : List Nat)
  | persist (userId guildId : Nat) (strikes : Nat)
  | notice (userId : Nat) (content : String)
  | timeout (userId : Nat) (untilTime : Int) (reason : String)
deriving DecidableEq, Repr

/-- The module-level bucket constants of automod.py. -/
def MESSAGE_SPAM_CFG : Bucket := ⟨5, 5, 0⟩

def DUPLICATE_SPAM_CFG : Bucket := ⟨10, 4, 4⟩

def INVITE_SPAM_CFG : Bucket := ⟨30, 2, 0⟩

def LINK_SPAM_CFG : Bucket := ⟨30, 3, 0⟩

def ATTACHMENT_SPAM_CFG : Bucket := ⟨30, 2, 0⟩

def MENTION_SPAM_CFG : Bucket := ⟨30, 3, 2⟩

/-- `MENTION_FILTER_LIMIT` of automod.py. -/
def MENTION_FILTER_LIMIT : Nat := 9

/-- Combined mutable state the pipeline touches: one `BucketState` per
module-level rate-limiter bucket, plus the strike table of the persistence
collaborator, keyed by (user id, guild id). -/
structure AMState where
  msgB : BucketState
  dupB : BucketState
  invB : BucketState
  linkB : BucketState
  attB : BucketState
  menB : BucketState
  db : List ((Nat × Nat) × Nat)
deriving DecidableEq, Repr

/-- Strike-table lookup (`SELECT … FROM members`). -/
def dbGet (db : List ((Nat × Nat) × Nat)) (k : Nat × Nat) : Option Nat :=
  (db.find? (fun p => p.1 == k)).map Prod.snd

/-- Strike-table upsert (`INSERT … ON CONFLICT DO UPDATE`). -/
def dbSet (db : List ((Nat × Nat) × Nat)) (k : Nat × Nat) (v : Nat) : List ((Nat × Nat) × Nat) :=
  match db with
  | [] => [(k, v)]
  | (k', v') :: rest => if k' == k then (k, v) :: rest else (k', v') :: dbSet rest k v

/-- `DatabaseMember.fetch`: read the member's strike record, creating (and
persisting) a zero record when absent. Returns the strikes and the updated
table plus the effects of the implicit insert. -/
def DatabaseMember.fetch (db : List ((Nat × Nat) × Nat)) (userId guildId : Nat) :
    Nat × List ((Nat × Nat) × Nat) × List Effect :=
  match dbGet db (userId, guildId) with
  | some s => (s, db, [])
  | none => (0, dbSet db (userId, guildId) 0, [Effect.persist userId guildId 0])

/-- The environment of collaborators `AutoMod` consults. Regular-expression
`findall` results are supplied by the environment (`url_findall` yields each
match's groups already joined, exactly how every use site consumes them);
`whitelist`/`blacklist` embed `domain_in_list` on the two list files;
`sb_status` is the status field of the safebrowsing verdict the client's
`check` returns for a url; `msg_cache` is `app.cache.get_message`. -/
structure AMEnv where
  invite_findall : String → List String
  url_findall : String → List String
  fake_findall : String → List String
  whitelist : String → Bool
  blacklist : String → Bool
  sb_status : String → String
  msg_cache : Nat → Option MsgCtx
  member_present : Bool
  member_is_bot : Bool
  bot_present : Bool

/-- `AutoMod.moderate`: delete the offending message (and the queued
messages of a spam offence when given), then apply the strike/timeout/notice
policy. Models the offending member and guild as present in the cache (the
pipeline guard already checked them). Returns the updated state and the
effect log. -/
def AutoMod.moderate (st : AMState) (msg : MsgCtx) (offence : OffenceType)
    (_media : MediaType) (reason : String) (message_queue : Option (List Nat))
    (now : Int) : Except String (AMState × List Effect) := do
  let userId ← match msg.author with
    | some a => Except.ok a
    | none => Except.error "AttributeError: message has no author"
  let guildId ← match msg.guild_id with
    | some g => Except.ok g
    | none => Except.error "AttributeError: message has no guild"
  let (strikes, db, fetchEffs) := DatabaseMember.fetch st.db userId guildId
  let st := { st with db := db }
  let delEffs :=
    Effect.deleteMsg msg.id ::
      (match message_queue with
       | some q => if q.isEmpty then [] else [Effect.deleteBulk msg.channel_id q]
       | none => [])
  if strikes < 4 ∧ offence = OffenceType.blocked then
    let strikes := strikes + 1
    let st := { st with db := dbSet st.db (userId, guildId) strikes }
    let content :=
      "Message removed because it violates a moderation policy: **" ++ reason ++
        "**\nContinued violation may result in further action."
    Except.ok (st, fetchEffs ++ delEffs ++
      [Effect.persist userId guildId strikes, Effect.notice userId content])
  else if strikes < 4 ∧ offence = OffenceType.spam then
    let strikes := strikes + 1
    let st := { st with db := dbSet st.db (userId, guildId) strikes }
    let timeoutSecs : Nat := 10 ^ strikes
    let duration : Int := now + (timeoutSecs : Int)
    Except.ok (st, fetchEffs ++ delEffs ++
      [Effect.persist userId guildId strikes, Effect.timeout userId duration reason])
  else
    Except.ok (st, fetchEffs ++ delEffs)

/-- `AutoMod.find_message_spam`. -/
def AutoMod.find_message_spam (_env : AMEnv) (st : AMState) (msg : MsgCtx)
    (now : Int) : Except String (AMState × Bool × List Effect) := do
  let msgB ← MessageRateLimiter.add_message MESSAGE_SPAM_CFG st.msgB msg now
  let st := { st with msgB := msgB }
  let recEff := [Effect.record MediaType.message msg.id]
  let (msgB, limited) ← MessageRateLimiter.is_rate_limited MESSAGE_SPAM_CFG st.msgB msg now
  let st := { st with msgB := msgB }
  if limited then
    let queue ← MessageRateLimiter.get_messages st.msgB msg
    let reason := "sending messages too frequently."
    let (st, effs) ← AutoMod.moderate st msg OffenceType.spam MediaType.message reason queue now
    Except.ok (st, false, recEff ++ effs)
  else
    Except.ok (st, true, recEff)

/-- `AutoMod.find_duplicate_spam`. -/
def AutoMod.find_duplicate_spam (env : AMEnv) (st : AMState) (msg : MsgCtx)
    (now : Int) : Except String (AMState × Bool × List Effect) := do
  if !pyTruthyOptStr msg.content then
    Except.ok (st, true, [])
  else do
    let c := msg.content.getD ""
    let queue ← MessageRateLimiter.get_messages st.dupB msg
    match queue with
    | none => do
        let dupB ← MessageRateLimiter.add_message DUPLICATE_SPAM_CFG st.dupB msg now
        Except.ok ({ st with dupB := dupB }, true, [Effect.record MediaType.duplicate msg.id])
    | some q =>
        match q.getLast? with
        | none => Except.error "IndexError: deque index out of range"
        | some lastId =>
            match env.msg_cache lastId with
            | none => Except.ok (st, true, [])
            | some prev =>
                match prev.content with
                | none => Except.error "AttributeError: NoneType has no attribute strip"
                | some pc =>
                    if lev pc.trim.data c.trim.data < 5 then do
                      let dupB ← MessageRateLimiter.add_message DUPLICATE_SPAM_CFG st.dupB msg now
                      let st := { st with dupB := dupB }
                      let recEff := [Effect.record MediaType.duplicate msg.id]
                      let (dupB, limited) ← MessageRateLimiter.is_rate_limited DUPLICATE_SPAM_CFG st.dupB msg now
                      let st := { st with dupB := dupB }
                      if limited then
                        let queue2 ← MessageRateLimiter.get_messages st.dupB msg
                        let reason := "sending consecutive copied and pasted messages."
                        let (st, effs) ← AutoMod.moderate st msg OffenceType.spam MediaType.duplicate reason queue2 now
                        Except.ok (st, false, recEff ++ effs)
                      else
                        Except.ok (st, true, recEff)
                    else
                      Except.ok (st, true, [])

/-- `AutoMod.find_invite_spam`. -/
def AutoMod.find_invite_spam (env : AMEnv) (st : AMState) (msg : MsgCtx)
    (now : Int) : Except String (AMState × Bool × List Effect) := do
  let (st, recEff) ←
    if pyTruthyOptStr msg.content ∧ env.invite_findall (msg.content.getD "").toLower ≠ [] then do
      let invB ← MessageRateLimiter.add_message INVITE_SPAM_CFG st.invB msg now
      Except.ok ({ st with invB := invB }, [Effect.record MediaType.invite msg.id])
    else
      Except.ok (st, ([] : List Effect))
  let (invB, limited) ← MessageRateLimiter.is_rate_limited INVITE_SPAM_CFG st.invB msg now
  let st := { st with invB := invB }
  if limited then
    let reason := "sending discord invites too frequently."
    let queue ← MessageRateLimiter.get_messages st.invB msg
    let (st, effs) ← AutoMod.moderate st msg OffenceType.spam MediaType.invite reason queue now
    Except.ok (st, false, recEff ++ effs)
  else
    Except.ok (st, true, recEff)

/-- `AutoMod.find_link_spam`. -/
def AutoMod.find_link_spam (env : AMEnv) (st : AMState) (msg : MsgCtx)
    (now : Int) : Except String (AMState × Bool × List Effect) := do
  let (st, recEff) ←
    if pyTruthyOptStr msg.content ∧ env.url_findall (msg.content.getD "").toLower ≠ [] then do
      let linkB ← MessageRateLimiter.add_message LINK_SPAM_CFG st.linkB msg now
      Except.ok ({ st with linkB := linkB }, [Effect.record MediaType.link msg.id])
    else
      Except.ok (st, ([] : List Effect))
  let (linkB, limited) ← MessageRateLimiter.is_rate_limited LINK_SPAM_CFG st.linkB msg now
  let st := { st with linkB := linkB }
  if limited then
    let reason := "sending links too frequently."
    let queue ← MessageRateLimiter.get_messages st.linkB msg
    let (st, effs) ← AutoMod.moderate st msg OffenceType.spam MediaType.link reason queue now
    Except.ok (st, false, recEff ++ effs)
  else
    Except.ok (st, true, recEff)

/-- `AutoMod.find_attach_spam`. -/
def AutoMod.find_attach_spam (_env : AMEnv) (st : AMState) (msg : MsgCtx)
    (now : Int) : Except String (AMState × Bool × List Effect) := do
  let (st, recEff) ←
    if msg.attachments ≠ [] then do
      let attB ← MessageRateLimiter.add_message ATTACHMENT_SPAM_CFG st.attB msg now
      Except.ok ({ st with attB := attB }, [Effect.record MediaType.attachment msg.id])
    else
      Except.ok (st, ([] : List Effect))
  let (attB, limited) ← MessageRateLimiter.is_rate_limited ATTACHMENT_SPAM_CFG st.attB msg now
  let st := { st with attB := attB }
  if limited then
    let reason := "sending attachments too frequently."
    let queue ← MessageRateLimiter.get_messages st.attB msg
    let (st, effs) ← AutoMod.moderate st msg OffenceType.spam MediaType.attachment reason queue now
    Except.ok (st, false, recEff ++ effs)
  else
    Except.ok (st, true, recEff)

/-- `AutoMod.find_mention_spam`. The `for` loop returns `True` at the first
mention that is a bot or the author, before any recording or limit check. -/
def AutoMod.find_mention_spam (_env : AMEnv) (st : AMState) (msg : MsgCtx)
    (now : Int) : Except String (AMState × Bool × List Effect) := do
  let authorId ← match msg.author with
    | some a => Except.ok a
    | none => Except.error "AssertionError: message has no author"
  if msg.user_mentions ≠ [] ∧
      msg.user_mentions.any (fun m => m.is_bot || m.id == authorId) then
    Except.ok (st, true, [])
  else do
    let (st, recEff) ←
      if msg.user_mentions ≠ [] then do
        let menB ← MessageRateLimiter.add_message MENTION_SPAM_CFG st.menB msg now
        Except.ok ({ st with menB := menB }, [Effect.record MediaType.mention msg.id])
      else
        Except.ok (st, ([] : List Effect))
    let (menB, limited) ← MessageRateLimiter.is_rate_limited MENTION_SPAM_CFG st.menB msg now
    let st := { st with menB := menB }
    if limited then
      let queue ← MessageRateLimiter.get_messages st.menB msg
      let reason := "mentioning users too frequently."
      let (st, effs) ← AutoMod.moderate st msg OffenceType.spam MediaType.mention reason queue now
      Except.ok (st, false, recEff ++ effs)
    else
      Except.ok (st, true, recEff)

/-- `AutoMod.block_invites` (`BLOCK_INVITES` is `True`); note the content is
not lowercased here. -/
def AutoMod.block_invites (env : AMEnv) (st : AMState) (msg : MsgCtx)
    (now : Int) : Except String (AMState × Bool × List Effect) := do
  if pyTruthyOptStr msg.content ∧ env.invite_findall (msg.content.getD "") ≠ [] then do
    let reason := "invite links are not allowed."
    let (st, effs) ← AutoMod.moderate st msg OffenceType.blocked MediaType.invite reason none now
    Except.ok (st, false, effs)
  else
    Except.ok (st, true, [])

/-- `AutoMod.block_malicious_links`: whitelist filter, blacklist check, then
the safebrowsing client for the remaining urls. -/
def AutoMod.block_malicious_links (env : AMEnv) (st : AMState) (msg : MsgCtx)
    (now : Int) : Except String (AMState × Bool × List Effect) := do
  if !pyTruthyOptStr msg.content ∨ env.url_findall (msg.content.getD "").toLower = [] then
    Except.ok (st, true, [])
  else do
    let reason := "this web resource is not allowed."
    let found := env.url_findall (msg.content.getD "").toLower
    let refined := found.filter (fun m => !env.whitelist m)
    if refined = [] then
      Except.ok (st, true, [])
    else if refined.any env.blacklist then do
      let (st, effs) ← AutoMod.moderate st msg OffenceType.blocked MediaType.link reason none now
      Except.ok (st, false, effs)
    else do
      let results := refined.map env.sb_status
      if results.any (fun r => r == "unsafe") then do
        let (st, effs) ← AutoMod.moderate st msg OffenceType.blocked MediaType.link reason none now
        Except.ok (st, false, effs)
      else
        Except.ok (st, true, [])

/-- `AutoMod.block_fake_links` (`BLOCK_FAKE_URL` is `True`). -/
def AutoMod.block_fake_links (env : AMEnv) (st : AMState) (msg : MsgCtx)
    (now : Int) : Except String (AMState × Bool × List Effect) := do
  if pyTruthyOptStr msg.content ∧ env.fake_findall (msg.content.getD "") ≠ [] then do
    let reason := "hyperlink contains link as text string."
    let (st, effs) ← AutoMod.moderate st msg OffenceType.blocked MediaType.hyperlink reason none now
    Except.ok (st, false, effs)
  else
    Except.ok (st, true, [])

/-- `AutoMod.limit_mentions`: blocks a message naming more than
`MENTION_FILTER_LIMIT` non-author, non-bot users. -/
def AutoMod.limit_mentions (_env : AMEnv) (st : AMState) (msg : MsgCtx)
    (now : Int) : Except String (AMState × Bool × List Effect) := do
  let authorId ← match msg.author with
    | some a => Except.ok a
    | none => Except.error "AssertionError: message has no author"
  if msg.user_mentions ≠ [] then
    let count := (msg.user_mentions.filter (fun m => m.id != authorId && !m.is_bot)).length
    if MENTION_FILTER_LIMIT < count then do
      let reason := "message contains too many consecutive mentions."
      let (st, effs) ← AutoMod.moderate st msg OffenceType.blocked MediaType.mention reason none now
      Except.ok (st, false, effs)
    else
      Except.ok (st, true, [])
  else
    Except.ok (st, true, [])

/-- The create-message branch of `AutoMod.check`: the tuple handed to
`all(...)` is built eagerly, so each classifier coroutine is awaited in the
fixed order regardless of earlier results; only an exception aborts the
sequence. Returns the final state, the (kind, result) pairs in evaluation
order, and the concatenated effect log. -/
def AutoMod.run_classifiers (env : AMEnv) (st : AMState) (msg : MsgCtx)
    (now : Int) : Except String (AMState × List (CKind × Bool) × List Effect) := do
  let (st, r1, e1) ← AutoMod.find_message_spam env st msg now
  let (st, r2, e2) ← AutoMod.find_duplicate_spam env st msg now
  let (st, r3, e3) ← AutoMod.find_invite_spam env st msg now
  let (st, r4, e4) ← AutoMod.find_link_spam env st msg now
  let (st, r5, e5) ← AutoMod.find_attach_spam env st msg now
  let (st, r6, e6) ← AutoMod.find_mention_spam env st msg now
  let (st, r7, e7) ← AutoMod.block_malicious_links env st msg now
  let (st, r8, e8) ← AutoMod.block_invites env st msg now
  let (st, r9, e9) ← AutoMod.block_fake_links env st msg now
  let (st, r10, e10) ← AutoMod.limit_mentions env st msg now
  Except.ok (st,
    [(CKind.messageRate, r1), (CKind.duplicateContent, r2), (CKind.inviteSpam, r3),
     (CKind.linkSpam, r4), (CKind.attachmentSpam, r5), (CKind.mentionSpam, r6),
     (CKind.unsafeLink, r7), (CKind.blockedInvite, r8), (CKind.fakeHyperlink, r9),
     (CKind.excessMentions, r10)],
    e1 ++ e2 ++ e3 ++ e4 ++ e5 ++ e6 ++ e7 ++ e8 ++ e9 ++ e10)

/-- `AutoMod.check` on a `GuildMessageCreateEvent`: the guard clauses
(missing author, missing guild, bot member not cached, author not cached or
a bot) skip moderation entirely; otherwise the ten classifiers run. -/
def AutoMod.check_create (env : AMEnv) (st : AMState) (msg : MsgCtx)
    (now : Int) : Except String (AMState × List (CKind × Bool) × List Effect) :=
  if msg.author.isNone then Except.ok (st, [], [])
  else if msg.guild_id.isNone then Except.ok (st, [], [])
  else if !env.bot_present then Except.ok (st, [], [])
  else if !env.member_present || env.member_is_bot then Except.ok (st, [], [])
  else AutoMod.run_classifiers env st msg now

/-- Result list of a pipeline run (empty on an exception). -/
def runResults (r : Except String (AMState × List (CKind × Bool) × List Effect)) :
    List (CKind × Bool) :=
  match r with
  | Except.ok (_, rs, _) => rs
  | Except.error _ => []

/-- Effect log of a pipeline run (empty on an exception). -/
def runEffects (r : Except String (AMState × List (CKind × Bool) × List Effect)) :
    List Effect :=
  match r with
  | Except.ok (_, _, es) => es
  | Except.error _ => []

/-! ## Safebrowsing client (src/models/safebrowsing.py) -/

/-- One entry of the response's `matches` list: `threat.url`, `threatType`
and the raw `cacheDuration` string (e.g. `"300s"`). -/
structure SBMatch where
  url : String
  threatType : String
  cacheDuration : String
deriving DecidableEq, Repr

/-- `SafeBrowsingResult`. The `cache_duration` field keeps the
`cacheDuration` string with its `"s"` characters stripped (the source's
`float(...)` numeric conversion of that same string is left as data). -/
structure SBResult where
  url : String
  status : String
  type : Option String
  cache_duration : Option String
deriving DecidableEq, Repr

/-- Python `str.strip("s")`: remove leading and trailing `'s'` characters. -/
def pyStripChar (c : Char) (s : String) : String :=
  ((s.data.dropWhile (· = c)).reverse.dropWhile (· = c)).reverse.asString

/-- Truthiness of a `SafeBrowsingResult` object: it defines no `__bool__` or
`__len__`, so it is always truthy. -/
def SBResult.pyTruthy (_ : SBResult) : Bool := true

/-- One iteration of the outer `for url in urls:` loop body of
`SafebrowsingClient._lookup_urls` on the running `results` dict: the inner
loop writes an unsafe result for every match whose threat url equals `url`
(the last such match winning), then `if not results[url]:` reads
`results[url]`, raising `KeyError` when the url is absent, and otherwise
skips the `safe` assignment because result objects are always truthy. -/
def lookupStep (ms : List SBMatch) (results : List (String × SBResult)) (url : String) :
    Except String (List (String × SBResult)) :=
  let results := ms.foldl
    (fun rs m =>
      if url = m.url then
        assocSet rs url
          { url := url, status := "unsafe", type := some m.threatType,
            cache_duration := some (pyStripChar 's' m.cacheDuration) }
      else rs)
    results
  match assocGet results url with
  | some r =>
      if r.pyTruthy then Except.ok results
      else Except.ok (assocSet results url { url := url, status := "safe", type := none, cache_duration := none })
  | none => Except.error ("KeyError: " ++ url)

/-- `SafebrowsingClient._lookup_urls`: `response` is the value
`_request_api` returned, `none` embedding the `None` a non-200 response
produces (`response["matches"]` then raises `TypeError`). -/
def lookup_urls (urls : List String) (response : Option (List SBMatch)) :
    Except String (List (String × SBResult)) := do
  match response with
  | none => Except.error "TypeError: NoneType object is not subscriptable"
  | some ms => urls.foldlM (lookupStep ms) []

/-! ### Interleaving model of `check` / `_run_queue`

A `resolve` caller (`SafebrowsingClient.check`) scans its urls one at a time
(each `queue.put` is a suspension point), enqueueing exactly the urls that
miss the cache, then blocks on `while any(... is None ...): await
event.wait()`; the broadcast wake-up plus re-check is modelled by letting a
waiting caller finish whenever all its urls are cached. The single consumer
(`_run_queue`) takes up to `_batch_size = 5` urls from the queue front,
issues one external request, and on response caches every produced verdict;
when `_lookup_urls` raises, the exception kills the consumer task
(`consumer = dead`) and nothing is cached. -/

/-- Phase of one `check` caller. -/
inductive CallerPhase
  | scanning | waiting | finished
deriving DecidableEq, Repr

/-- One `check` caller: its full url list, the urls not yet scanned by the
enqueue loop, and its phase. -/
structure CallerState where
  urls : List String
  pending : List String
  phase : CallerPhase
deriving DecidableEq, Repr

/-- Phase of the background consumer task. -/
inductive ConsumerPhase
  | idle
  | fetching (batch : List String)
  | dead
deriving DecidableEq, Repr

/-- Global state of the safebrowsing client plus its callers. `calls` logs
every external batch request issued. -/
structure SBState where
  cache : List (String × SBResult)
  queue : List String
  consumer : ConsumerPhase
  callers : List CallerState
  calls : List (List String)
deriving DecidableEq, Repr

/-- `_batch_size`. -/
def SB_BATCH_SIZE : Nat := 5

/-- Scheduler actions: `scan i` runs one iteration of caller `i`'s enqueue
loop, `beginWait i` moves a caller with nothing left to scan into the wait
loop, `finish i` lets a waiting caller whose urls are all cached return,
`take` lets the idle consumer seize a batch from the non-empty queue and
issue the external request, `deliver r` completes the in-flight request with
response `r` (`none` = non-200). -/
inductive SBAction
  | scan (i : Nat)
  | beginWait (i : Nat)
  | finish (i : Nat)
  | take
  | deliver (r : Option (List SBMatch))

/-- Small-step transition; `none` when the action is not enabled. -/
def sbStep (a : SBAction) (s : SBState) : Option SBState :=
  match a with
  | SBAction.scan i =>
      match s.callers.get? i with
      | some c =>
          match c.phase, c.pending with
          | CallerPhase.scanning, u :: rest =>
              let c' := { c with pending := rest }
              let queue' := if (assocGet s.cache u).isNone then s.queue ++ [u] else s.queue
              some { s with callers := s.callers.set i c', queue := queue' }
          | _, _ => none
      | none => none
  | SBAction.beginWait i =>
      match s.callers.get? i with
      | some c =>
          match c.phase, c.pending with
          | CallerPhase.scanning, [] =>
              some { s with callers := s.callers.set i { c with phase := CallerPhase.waiting } }
          | _, _ => none
      | none => none
  | SBAction.finish i =>
      match s.callers.get? i with
      | some c =>
          if c.phase = CallerPhase.waiting ∧ c.urls.all (fun u => (assocGet s.cache u).isSome) then
            some { s with callers := s.callers.set i { c with phase := CallerPhase.finished } }
          else none
      | none => none
  | SBAction.take =>
      match s.consumer, s.queue with
      | ConsumerPhase.idle, u :: rest =>
          let batch := (u :: rest).take SB_BATCH_SIZE
          some { s with consumer := ConsumerPhase.fetching batch,
                        queue := (u :: rest).drop SB_BATCH_SIZE,
                        calls := s.calls ++ [batch] }
      | _, _ => none
  | SBAction.deliver r =>
      match s.consumer with
      | ConsumerPhase.fetching batch =>
          match lookup_urls batch r with
          | Except.ok results =>
              some { s with consumer := ConsumerPhase.idle,
                            cache := results.foldl (fun c p => assocSet c p.2.url p.2) s.cache }
          | Except.error _ =>
              some { s with consumer := ConsumerPhase.dead }
      | _ => none

/-- Run a schedule; actions that are not enabled are skipped. -/
def sbRun (acts : List SBAction) (s : SBState) : SBState :=
  match acts with
  | [] => s
  | a :: rest => sbRun rest ((sbStep a s).getD s)

/-! ## Concrete instances used by witnesses and counterexamples -/

/-- An `AMState` whose six buckets are empty, with the given strike table. -/
def plainState (db : List ((Nat × Nat) × Nat)) : AMState :=
  ⟨⟨[], []⟩, ⟨[], []⟩, ⟨[], []⟩, ⟨[], []⟩, ⟨[], []⟩, ⟨[], []⟩, db⟩

/-- A message from user 1 in guild 9 with the given content and mentions. -/
def plainMsg (content : Option String) (mentions : List Mention) : MsgCtx :=
  ⟨100, 7, some 1, some 9, content, [], mentions⟩

/-- An environment in which every regex finds nothing, both domain lists are
empty, safebrowsing reports everything safe, the message cache is empty, and
the author and bot members are cached (author not a bot). -/
def plainEnv : AMEnv :=
  ⟨fun _ => [], fun _ => [], fun _ => [], fun _ => false, fun _ => false,
    fun _ => "safe", fun _ => none, true, false, true⟩

/-- Effect log of a single classifier run (empty on an exception). -/
def classifierEffects (r : Except String (AMState × Bool × List Effect)) : List Effect :=
  match r with
  | Except.ok (_, _, es) => es
  | Except.error _ => []

/-- A created message with no content or attachments mentioning ten distinct
non-bot users other than its author. -/
def c1Msg : MsgCtx :=
  plainMsg none [⟨2, false⟩, ⟨3, false⟩, ⟨4, false⟩, ⟨5, false⟩, ⟨6, false⟩,
    ⟨7, false⟩, ⟨8, false⟩, ⟨9, false⟩, ⟨10, false⟩, ⟨11, false⟩]

/-- A state in which the author's message-rate limiter is exhausted
(remaining 0, window open until time 3, queue task sleeping) and the member
has no strikes. -/
def c1State : AMState :=
  { plainState [((1, 9), 0)] with msgB := ⟨[("9-1", ⟨3, 0, 0, true⟩)], []⟩ }

/-- An environment whose message cache holds message 50 with text
`"hello!"`. -/
def c8Env : AMEnv :=
  { plainEnv with msg_cache := fun n => if n = 50 then some (plainMsg (some "hello!") []) else none }

/-- A state in which the duplicate bucket tracks message 50 as the key's
most recent message. -/
def c8State : AMState :=
  { plainState [] with dupB := ⟨[], [("9-1", [50])]⟩ }

/-- A safebrowsing match entry flagging `http://a.test` as malware with a
300-second cache duration. -/
def sbMatchA : SBMatch := ⟨"http://a.test", "MALWARE", "300s"⟩

/-- Two concurrent `check` callers both asking for the single uncached url
`http://a.test`; consumer idle, cache and queue empty. -/
def c3Init : SBState :=
  ⟨[], [], ConsumerPhase.idle,
    [⟨["http://a.test"], ["http://a.test"], CallerPhase.scanning⟩,
     ⟨["http://a.test"], ["http://a.test"], CallerPhase.scanning⟩], []⟩

/-- Interleaving: caller 0 enqueues and the consumer takes its batch; while
the request is in flight caller 1 misses the still-empty cache and enqueues
the same url; the response arrives and is cached; the consumer takes the
stale queue entry as a second batch. -/
def c3Trace : List SBAction :=
  [SBAction.scan 0, SBAction.take, SBAction.scan 1,
   SBAction.deliver (some [sbMatchA]), SBAction.take]

/-- One `check` caller asking for the single uncached url. -/
def c4Init : SBState :=
  ⟨[], [], ConsumerPhase.idle,
    [⟨["http://a.test"], ["http://a.test"], CallerPhase.scanning⟩], []⟩

/-- The caller enqueues, waits, the consumer takes the batch, and the
external request fails (non-200, `_request_api` returns `None`). -/
def c4Trace : List SBAction :=
  [SBAction.scan 0, SBAction.beginWait 0, SBAction.take, SBAction.deliver none]

/-- The state after `c4Trace`: consumer task dead from the `TypeError`,
nothing cached, the caller still blocked in the wait loop. -/
def c4Stuck : SBState :=
  ⟨[], [], ConsumerPhase.dead,
    [⟨["http://a.test"], [], CallerPhase.waiting⟩], [["http://a.test"]]⟩

/-! ## Helper lemmas -/

/-- Strike-table read-after-write. -/
lemma dbGet_dbSet (db : List ((Nat × Nat) × Nat)) (k : Nat × Nat) (v : Nat) :
    dbGet (dbSet db k v) k = some v := by
  induction db with
  | nil => simp [dbGet, dbSet]
  | cons p rest ih =>
      obtain ⟨pk, pv⟩ := p
      by_cases h : pk = k
      · simp [dbGet, dbSet, h]
      · have hb : (pk == k) = false := by simpa using h
        simp only [dbSet, hb, Bool.false_eq_true, if_false]
        simpa [dbGet, List.find?_cons, hb] using ih

/-- `_get_key` on a context with a present author and a non-zero guild id. -/
lemma get_key_valid (ctx : MsgCtx) (a g : Nat) (ha : ctx.author = some a)
    (hg : ctx.guild_id = some g) (h0 : g ≠ 0) :
    MessageRateLimiter.get_key ctx = Except.ok (toString g ++ "-" ++ toString a) := by
  simp [MessageRateLimiter.get_key, ha, hg, pyTruthyOptNat, h0]

/-- `get_messages` under a valid key is the plain queue lookup. -/
lemma get_messages_eq (st : BucketState) (ctx : MsgCtx) (a g : Nat)
    (ha : ctx.author = some a) (hg : ctx.guild_id = some g) (h0 : g ≠ 0) :
    MessageRateLimiter.get_messages st ctx =
      Except.ok (assocGet st.message_queue (toString g ++ "-" ++ toString a)) := by
  simp [MessageRateLimiter.get_messages, get_key_valid ctx a g ha hg h0,
    Bind.bind, Except.bind]

/-- `add_message` under a valid key succeeds. -/
lemma add_message_ok (b : Bucket) (st : BucketState) (ctx : MsgCtx) (now : Int)
    (a g : Nat) (ha : ctx.author = some a) (hg : ctx.guild_id = some g) (h0 : g ≠ 0) :
    ∃ st', MessageRateLimiter.add_message b st ctx now = Except.ok st' := by
  have hk := get_key_valid ctx a g ha hg h0
  simp only [MessageRateLimiter.add_message, MessageRateLimiter.add,
    MessageRateLimiter.get_ratelimiter, hk, Bind.bind, Except.bind]
  cases assocGet st.rate_limiters (toString g ++ "-" ++ toString a) <;>
    · by_cases hq : 0 < b.message_queue_size <;> simp [hq]

/-- `is_rate_limited` under a valid key succeeds. -/
lemma is_rate_limited_ok (b : Bucket) (st : BucketState) (ctx : MsgCtx) (now : Int)
    (a g : Nat) (ha : ctx.author = some a) (hg : ctx.guild_id = some g) (h0 : g ≠ 0) :
    ∃ st' lim, MessageRateLimiter.is_rate_limited b st ctx now = Except.ok (st', lim) := by
  have hk := get_key_valid ctx a g ha hg h0
  simp only [MessageRateLimiter.is_rate_limited, MessageRateLimiter.get_ratelimiter, hk,
    Bind.bind, Except.bind]
  cases assocGet st.rate_limiters (toString g ++ "-" ++ toString a) <;> simp

/-- `moderate` under a present author and guild succeeds. -/
lemma moderate_ok (st : AMState) (msg : MsgCtx) (offence : OffenceType)
    (media : MediaType) (reason : String) (queue : Option (List Nat)) (now : Int)
    (a g : Nat) (ha : msg.author = some a) (hg : msg.guild_id = some g) :
    ∃ p, AutoMod.moderate st msg offence media reason queue now = Except.ok p := by
  simp only [AutoMod.moderate, ha, hg, Bind.bind, Except.bind]
  split
  · exact ⟨_, rfl⟩
  · split
    · exact ⟨_, rfl⟩
    · exact ⟨_, rfl⟩

/-! ## Claim theorems -/

/-- C2: in `_lookup_urls`, a URL absent from the response's match list does
not receive a `safe` verdict: the `if not results[url]:` read raises
`KeyError` (result objects are always truthy, so the `safe` assignment is
unreachable), and no verdict at all is produced for the batch. A URL present
in the match list does receive its `unsafe` verdict with threat kind and
stripped cache duration. -/
theorem lookup_urls_keyerror_on_unmatched_url :
    lookup_urls ["http://a.test"] (some []) = Except.error "KeyError: http://a.test"
    ∧ lookup_urls ["http://a.test"] (some [⟨"http://a.test", "MALWARE", "300s"⟩]) =
        Except.ok [("http://a.test",
          { url := "http://a.test", status := "unsafe", type := some "MALWARE",
            cache_duration := some "300" })] := by
  exact ⟨rfl, rfl⟩

/-- C5: a spam offence by a member with `strikes = s < 4` increments the
persisted strike count to `s + 1` and applies a timeout expiring exactly
`10 ^ (s + 1)` seconds after the current time. -/
theorem spam_offence_escalates
    (st : AMState) (msg : MsgCtx) (media : MediaType) (reason : String)
    (queue : Option (List Nat)) (now : Int) (a g s : Nat)
    (ha : msg.author = some a) (hg : msg.guild_id = some g)
    (hs : dbGet st.db (a, g) = some s) (hlt : s < 4) :
    AutoMod.moderate st msg OffenceType.spam media reason queue now =
      Except.ok ({ st with db := dbSet st.db (a, g) (s + 1) },
        (Effect.deleteMsg msg.id ::
          (match queue with
           | some q => if q.isEmpty then [] else [Effect.deleteBulk msg.channel_id q]
           | none => [])) ++
        [Effect.persist a g (s + 1),
         Effect.timeout a (now + ((10 ^ (s + 1) : Nat) : Int)) reason])
    ∧ dbGet (dbSet st.db (a, g) (s + 1)) (a, g) = some (s + 1) := by
  constructor
  · simp [AutoMod.moderate, ha, hg, DatabaseMember.fetch, hs, hlt, Bind.bind, Except.bind]
  · exact dbGet_dbSet st.db (a, g) (s + 1)

/-- C5 witness: a member with three strikes who spams ends with four strikes
and a 10000-second timeout. -/
theorem spam_offence_escalates_witness :
    AutoMod.moderate (plainState [((1, 9), 3)]) (plainMsg (some "x") [])
        OffenceType.spam MediaType.message "sending messages too frequently." none 0 =
      Except.ok (plainState [((1, 9), 4)],
        [Effect.deleteMsg 100, Effect.persist 1 9 4,
         Effect.timeout 1 10000 "sending messages too frequently."])
    ∧ dbGet [((1, 9), 4)] (1, 9) = some 4 := by
  have h := spam_offence_escalates (plainState [((1, 9), 3)]) (plainMsg (some "x") [])
    MediaType.message "sending messages too frequently." none 0 1 9 3 rfl rfl (by decide)
    (by decide)
  simpa [plainState, plainMsg, dbSet] using h

/-- C7: a member whose strike count is already at least 4 keeps that strike
count on any offence, and the only enforcement effects are the message
deletions: no persistence write, no timeout, no notice. -/
theorem capped_strikes_only_deletion
    (st : AMState) (msg : MsgCtx) (offence : OffenceType) (media : MediaType)
    (reason : String) (queue : Option (List Nat)) (now : Int) (a g s : Nat)
    (ha : msg.author = some a) (hg : msg.guild_id = some g)
    (hs : dbGet st.db (a, g) = some s) (h4 : 4 ≤ s) :
    AutoMod.moderate st msg offence media reason queue now =
      Except.ok (st,
        Effect.deleteMsg msg.id ::
          (match queue with
           | some q => if q.isEmpty then [] else [Effect.deleteBulk msg.channel_id q]
           | none => [])) := by
  have hns : ¬ s < 4 := by omega
  simp [AutoMod.moderate, ha, hg, DatabaseMember.fetch, hs, hns, Bind.bind, Except.bind]

/-- C7 witness: a member with exactly 4 strikes on a policy-blocked offence
with a queued spam batch. -/
theorem capped_strikes_only_deletion_witness :
    AutoMod.moderate (plainState [((1, 9), 4)]) (plainMsg (some "x") [])
        OffenceType.blocked MediaType.invite "invite links are not allowed." (some [42]) 0 =
      Except.ok (plainState [((1, 9), 4)],
        [Effect.deleteMsg 100, Effect.deleteBulk 7 [42]]) := by
  have h := capped_strikes_only_deletion (plainState [((1, 9), 4)]) (plainMsg (some "x") [])
    OffenceType.blocked MediaType.invite "invite links are not allowed." (some [42]) 0 1 9 4
    rfl rfl (by decide) (by decide)
  simpa [plainState, plainMsg] using h

/-- C9: `record` (`add_message`) and `is_limited` (`is_rate_limited`) on a
message context whose author or guild identifier is missing fail with the
`ValueError("context missing required parameters")` of `_get_key`; no
default key is computed and the bucket state is untouched. -/
theorem missing_context_raises_value_error
    (b : Bucket) (st : BucketState) (ctx : MsgCtx) (now : Int)
    (h : ctx.author = none ∨ ctx.guild_id = none) :
    MessageRateLimiter.is_rate_limited b st ctx now =
        Except.error "ValueError: context missing required parameters"
    ∧ MessageRateLimiter.add_message b st ctx now =
        Except.error "ValueError: context missing required parameters" := by
  have hk : MessageRateLimiter.get_key ctx =
      Except.error "ValueError: context missing required parameters" := by
    rcases h with h | h <;>
      simp [MessageRateLimiter.get_key, h, pyTruthyOptNat]
  constructor
  · simp [MessageRateLimiter.is_rate_limited, MessageRateLimiter.get_ratelimiter, hk,
      Bind.bind, Except.bind]
  · simp [MessageRateLimiter.add_message, MessageRateLimiter.add,
      MessageRateLimiter.get_ratelimiter, hk, Bind.bind, Except.bind]

/-- C9 witness: a context with no author. -/
theorem missing_context_raises_value_error_witness :
    MessageRateLimiter.is_rate_limited MESSAGE_SPAM_CFG ⟨[], []⟩
        { id := 1, channel_id := 2, author := none, guild_id := some 9,
          content := none, attachments := [], user_mentions := [] } 0 =
      Except.error "ValueError: context missing required parameters"
    ∧ MessageRateLimiter.add_message MESSAGE_SPAM_CFG ⟨[], []⟩
        { id := 1, channel_id := 2, author := none, guild_id := some 9,
          content := none, attachments := [], user_mentions := [] } 0 =
      Except.error "ValueError: context missing required parameters" :=
  missing_context_raises_value_error MESSAGE_SPAM_CFG ⟨[], []⟩
    { id := 1, channel_id := 2, author := none, guild_id := some 9,
      content := none, attachments := [], user_mentions := [] } 0 (Or.inl rfl)

/-- C10: a message whose user mentions include a bot or the author is
allowed by `find_mention_spam` without recording to the mention limiter and
without the limit check (the state is returned untouched and no effect is
produced), even when other non-bot, non-author users are mentioned too. -/
theorem mention_spam_skips_bot_or_author_mentions
    (env : AMEnv) (st : AMState) (msg : MsgCtx) (now : Int) (a : Nat)
    (ha : msg.author = some a)
    (hex : ∃ m ∈ msg.user_mentions, m.is_bot = true ∨ m.id = a) :
    AutoMod.find_mention_spam env st msg now = Except.ok (st, true, []) := by
  have hne : msg.user_mentions ≠ [] := by
    rcases hex with ⟨m, hm, _⟩
    intro hnil
    rw [hnil] at hm
    exact absurd hm (List.not_mem_nil m)
  have hany : msg.user_mentions.any (fun m => m.is_bot || m.id == a) = true := by
    rcases hex with ⟨m, hm, hor⟩
    refine List.any_eq_true.mpr ⟨m, hm, ?_⟩
    rcases hor with h | h <;> simp [h]
  simp [AutoMod.find_mention_spam, ha, hne, hany, Bind.bind, Except.bind]

/-- C10 witness: a message mentioning one bot and two other non-author,
non-bot users. -/
theorem mention_spam_skips_bot_or_author_mentions_witness :
    AutoMod.find_mention_spam plainEnv (plainState [])
        (plainMsg none [⟨2, false⟩, ⟨3, true⟩, ⟨4, false⟩]) 0 =
      Except.ok (plainState [], true, []) :=
  mention_spam_skips_bot_or_author_mentions plainEnv (plainState [])
    (plainMsg none [⟨2, false⟩, ⟨3, true⟩, ⟨4, false⟩]) 0 1 rfl
    ⟨⟨3, true⟩, by decide, Or.inl rfl⟩

/-- Closed form of `k ≤ count + 1` settled records on a fresh limiter at a
fixed time: the window is untouched and `remaining_requests` drops by one
per record. -/
lemma recordN_closed_form (b : Bucket) (now : Int) (ht : 0 < b.timespan) :
    ∀ k : Nat, (k : Int) ≤ b.count + 1 →
      RateLimiter.recordN b k (RateLimiter.get_instance b now) now =
        { reset_at := now + b.timespan, remaining_requests := b.count + 1 - k,
          request_queue := 0, task_active := false } := by
  intro k
  induction k with
  | zero =>
      intro _
      simp [RateLimiter.recordN, RateLimiter.get_instance]
  | succ n ih =>
      intro hn
      have hn' : (n : Int) ≤ b.count + 1 := by push_cast at hn ⊢; omega
      have hpos : 0 < b.count + 1 - (n : Int) := by push_cast at hn; omega
      rw [RateLimiter.recordN, ih hn']
      have hnotsleep : ¬ (b.count + 1 - (n : Int) ≤ 0 ∧ now < now + b.timespan) := by
        intro h
        omega
      have hnotlapsed : ¬ (now + b.timespan ≤ now) := by linarith
      have hdrain : drainQueue (b.count + 1 - (n : Int)) 1 = (b.count + 1 - (n : Int) - 1, 0) := by
        simp [drainQueue, hpos]
      simp only [RateLimiter.record_settled, RateLimiter.add_request, RateLimiter.run_queue,
        if_neg hnotsleep, if_neg hnotlapsed, hdrain]
      have harith : b.count + 1 - (n : Int) - 1 = b.count + 1 - ((n + 1 : Nat) : Int) := by
        push_cast
        ring
      rw [harith]

/-- C6: a limiter created on first reference is seeded with
`remaining_requests = quota + 1`; `is_limited` is false immediately after
construction (before any record), and after `quota + 1` settled record
calls within the window `is_limited` is true — so at most `quota + 1`
records occur before the key is limited. -/
theorem ratelimiter_seeded_with_quota_plus_one
    (b : Bucket) (now : Int) (hc : 0 ≤ b.count) (ht : 0 < b.timespan) :
    (RateLimiter.get_instance b now).remaining_requests = b.count + 1
    ∧ (RateLimiter.get_instance b now).is_limited now = false
    ∧ (RateLimiter.recordN b (b.count + 1).toNat
        (RateLimiter.get_instance b now) now).is_limited now = true := by
  have hcast : ((b.count + 1).toNat : Int) = b.count + 1 := Int.toNat_of_nonneg (by omega)
  refine ⟨rfl, ?_, ?_⟩
  · have h1 : ¬ (now + b.timespan ≤ now) := by linarith
    have h2 : ¬ (b.count + 1 ≤ 0) := by omega
    simp [RateLimiter.is_limited, RateLimiter.get_instance, h1, h2]
  · rw [recordN_closed_form b now ht _ (le_of_eq hcast)]
    have h1 : ¬ (now + b.timespan ≤ now) := by linarith
    have h2 : b.count + 1 - ((b.count + 1).toNat : Int) ≤ 0 := by omega
    simp [RateLimiter.is_limited, h1, h2]

/-- C6 witness: the message-spam bucket (window 5s, quota 5) at time 0 —
seeded with 6, unlimited before any record, limited after 6 records. -/
theorem ratelimiter_seeded_with_quota_plus_one_witness :
    (RateLimiter.get_instance MESSAGE_SPAM_CFG 0).remaining_requests = MESSAGE_SPAM_CFG.count + 1
    ∧ (RateLimiter.get_instance MESSAGE_SPAM_CFG 0).is_limited 0 = false
    ∧ (RateLimiter.recordN MESSAGE_SPAM_CFG (MESSAGE_SPAM_CFG.count + 1).toNat
        (RateLimiter.get_instance MESSAGE_SPAM_CFG 0) 0).is_limited 0 = true :=
  ratelimiter_seeded_with_quota_plus_one MESSAGE_SPAM_CFG 0 (by decide) (by decide)

/-- C8: for a pair of consecutive messages from the same key (the previous
tracked message exists in the queue and the cache, both with text), the new
message is counted toward the duplicate-spam limiter (a `record` effect on
the duplicate bucket) exactly when the Levenshtein distance between the two
trimmed texts is strictly below 5. -/
theorem duplicate_counted_iff_edit_distance_lt_5
    (env : AMEnv) (st : AMState) (msg : MsgCtx) (now : Int)
    (a g lastId : Nat) (c pc : String) (q : List Nat) (prev : MsgCtx)
    (ha : msg.author = some a) (hg : msg.guild_id = some g) (h0 : g ≠ 0)
    (hc : msg.content = some c) (hc0 : c ≠ "")
    (hq : assocGet st.dupB.message_queue (toString g ++ "-" ++ toString a) = some q)
    (hlast : q.getLast? = some lastId)
    (hprev : env.msg_cache lastId = some prev)
    (hpc : prev.content = some pc) :
    (Effect.record MediaType.duplicate msg.id ∈
        classifierEffects (AutoMod.find_duplicate_spam env st msg now))
      ↔ lev pc.trim.data c.trim.data < 5 := by
  have htr : pyTruthyOptStr msg.content = true := by simp [pyTruthyOptStr, hc, hc0]
  have htr' : pyTruthyOptStr (some c) = true := by simp [pyTruthyOptStr, hc0]
  have hgm := get_messages_eq st.dupB msg a g ha hg h0
  by_cases hd : lev pc.trim.data c.trim.data < 5
  · obtain ⟨st1, hadd⟩ := add_message_ok DUPLICATE_SPAM_CFG st.dupB msg now a g ha hg h0
    obtain ⟨st2, lim, hlim⟩ := is_rate_limited_ok DUPLICATE_SPAM_CFG st1 msg now a g ha hg h0
    have hgm2 := get_messages_eq st2 msg a g ha hg h0
    obtain ⟨⟨p1, p2⟩, hmod⟩ := moderate_ok { st with dupB := st2 } msg OffenceType.spam
      MediaType.duplicate "sending consecutive copied and pasted messages."
      (assocGet st2.message_queue (toString g ++ "-" ++ toString a)) now a g ha hg
    cases lim
    · have hres : AutoMod.find_duplicate_spam env st msg now =
          Except.ok ({ st with dupB := st2 }, true, [Effect.record MediaType.duplicate msg.id]) := by
        simp only [AutoMod.find_duplicate_spam, htr, htr', Bool.not_true, Bool.false_eq_true,
          if_false, hc, Option.getD_some, Bind.bind, Except.bind, hgm, hq, hlast, hprev, hpc,
          hd, if_true, hadd, hlim, hgm2]
      rw [hres]
      simp [classifierEffects, hd]
    · have hres : AutoMod.find_duplicate_spam env st msg now =
          Except.ok (p1, false, Effect.record MediaType.duplicate msg.id :: p2) := by
        simp only [AutoMod.find_duplicate_spam, htr, htr', Bool.not_true, Bool.false_eq_true,
          if_false, hc, Option.getD_some, Bind.bind, Except.bind, hgm, hq, hlast, hprev, hpc,
          hd, if_true, hadd, hlim, hgm2, hmod]
        simp
      rw [hres]
      simp [classifierEffects, hd]
  · have hres : AutoMod.find_duplicate_spam env st msg now = Except.ok (st, true, []) := by
      simp only [AutoMod.find_duplicate_spam, htr, htr', Bool.not_true, Bool.false_eq_true,
        if_false, hc, Option.getD_some, Bind.bind, Except.bind, hgm, hq, hlast, hprev, hpc, hd]
    rw [hres]
    simp [classifierEffects, hd]

/-- C8 witness: previous text `"hello!"`, new text `"hello"` (distance 1),
for the key's tracked message 50. -/
theorem duplicate_counted_iff_edit_distance_lt_5_witness :
    (Effect.record MediaType.duplicate 100 ∈
        classifierEffects (AutoMod.find_duplicate_spam c8Env c8State (plainMsg (some "hello") []) 0))
      ↔ lev "hello!".trim.data "hello".trim.data < 5 :=
  duplicate_counted_iff_edit_distance_lt_5 c8Env c8State (plainMsg (some "hello") []) 0
    1 9 50 "hello" "hello!" [50] (plainMsg (some "hello!") [])
    rfl rfl (by decide) rfl (by decide) (by decide) rfl rfl rfl

/-- A successful `Except` bind has a successful first component. -/
lemma bind_isOk {α β : Type} {x : Except String α} {f : α → Except String β}
    (h : (x >>= f).isOk = true) : ∃ a, x = Except.ok a ∧ (f a).isOk = true := by
  cases x with
  | ok a => exact ⟨a, rfl, h⟩
  | error e => simp [Bind.bind, Except.bind, Except.isOk, Except.toBool] at h

/-- C1 (amended): for every created message that passes the guard clauses,
the orchestrator evaluates every one of the ten classifiers, in the fixed
order message-rate, duplicate-content, invite-spam, link-spam,
attachment-spam, mention-spam, unsafe-link, blocked-invite, fake-hyperlink,
excess-mentions — an offence does not stop later classifiers (the tuple
handed to `all(...)` is built eagerly); only an exception aborts the
sequence. -/
theorem classifiers_run_in_fixed_order_without_short_circuit
    (env : AMEnv) (st : AMState) (msg : MsgCtx) (now : Int)
    (h : (AutoMod.run_classifiers env st msg now).isOk = true) :
    (runResults (AutoMod.run_classifiers env st msg now)).map Prod.fst =
      [CKind.messageRate, CKind.duplicateContent, CKind.inviteSpam, CKind.linkSpam,
       CKind.attachmentSpam, CKind.mentionSpam, CKind.unsafeLink, CKind.blockedInvite,
       CKind.fakeHyperlink, CKind.excessMentions] := by
  simp only [AutoMod.run_classifiers] at h ⊢
  obtain ⟨⟨st1, r1, e1⟩, h1, h⟩ := bind_isOk h
  rw [h1] at *
  dsimp only [Bind.bind, Except.bind] at h ⊢
  obtain ⟨⟨st2, r2, e2⟩, h2, h⟩ := bind_isOk h
  rw [h2] at *
  dsimp only [Bind.bind, Except.bind] at h ⊢
  obtain ⟨⟨st3, r3, e3⟩, h3, h⟩ := bind_isOk h
  rw [h3] at *
  dsimp only [Bind.bind, Except.bind] at h ⊢
  obtain ⟨⟨st4, r4, e4⟩, h4, h⟩ := bind_isOk h
  rw [h4] at *
  dsimp only [Bind.bind, Except.bind] at h ⊢
  obtain ⟨⟨st5, r5, e5⟩, h5, h⟩ := bind_isOk h
  rw [h5] at *
  dsimp only [Bind.bind, Except.bind] at h ⊢
  obtain ⟨⟨st6, r6, e6⟩, h6, h⟩ := bind_isOk h
  rw [h6] at *
  dsimp only [Bind.bind, Except.bind] at h ⊢
  obtain ⟨⟨st7, r7, e7⟩, h7, h⟩ := bind_isOk h
  rw [h7] at *
  dsimp only [Bind.bind, Except.bind] at h ⊢
  obtain ⟨⟨st8, r8, e8⟩, h8, h⟩ := bind_isOk h
  rw [h8] at *
  dsimp only [Bind.bind, Except.bind] at h ⊢
  obtain ⟨⟨st9, r9, e9⟩, h9, h⟩ := bind_isOk h
  rw [h9] at *
  dsimp only [Bind.bind, Except.bind] at h ⊢
  obtain ⟨⟨st10, r10, e10⟩, h10, h⟩ := bind_isOk h
  rw [h10] at *
  dsimp only [Bind.bind, Except.bind] at h ⊢
  simp [runResults]

set_option maxRecDepth 100000 in
/-- C1 counterexample: with the message-rate limiter already exhausted, the
first classifier reports an offence (result `false`, a timeout is applied),
yet the later classifiers still execute for that message — mention-spam
records to its limiter and excess-mentions moderates a second time (a
policy notice is delivered). This refutes "no classifier after the first
offending one is executed". -/
theorem first_offence_does_not_stop_pipeline :
    (runResults (AutoMod.run_classifiers plainEnv c1State c1Msg 1)).map Prod.snd =
      [false, true, true, true, true, true, true, true, true, false]
    ∧ Effect.timeout 1 11 "sending messages too frequently." ∈
        runEffects (AutoMod.run_classifiers plainEnv c1State c1Msg 1)
    ∧ Effect.record MediaType.mention 100 ∈
        runEffects (AutoMod.run_classifiers plainEnv c1State c1Msg 1)
    ∧ Effect.notice 1 ("Message removed because it violates a moderation policy: **message contains too many consecutive mentions.**\nContinued violation may result in further action.") ∈
        runEffects (AutoMod.run_classifiers plainEnv c1State c1Msg 1) := by
  refine ⟨by decide, by decide, by decide, by decide⟩

set_option maxRecDepth 100000 in
/-- C1 witness for the amended claim: the pipeline run of the counterexample
environment succeeds and the kinds appear in the fixed order. -/
theorem classifiers_run_in_fixed_order_without_short_circuit_witness :
    (AutoMod.run_classifiers plainEnv c1State c1Msg 1).isOk = true
    ∧ (runResults (AutoMod.run_classifiers plainEnv c1State c1Msg 1)).map Prod.fst =
      [CKind.messageRate, CKind.duplicateContent, CKind.inviteSpam, CKind.linkSpam,
       CKind.attachmentSpam, CKind.mentionSpam, CKind.unsafeLink, CKind.blockedInvite,
       CKind.fakeHyperlink, CKind.excessMentions] :=
  ⟨by decide,
   classifiers_run_in_fixed_order_without_short_circuit plainEnv c1State c1Msg 1 (by decide)⟩

set_option maxRecDepth 100000 in
/-- C3 counterexample: two concurrent `check` callers for the same uncached
url cause two external batch lookups for it — caller 1 re-enqueues the url
while the first batch is in flight, and the consumer (which never re-checks
the cache before sending) issues a second request even though the verdict
(cache duration 300 seconds, and cache entries never expire at all) is
already cached by then. This refutes "at most one external batch lookup per
URL until its cached verdict's ttl expires". -/
theorem concurrent_callers_double_lookup :
    (sbRun c3Trace c3Init).calls = [["http://a.test"], ["http://a.test"]]
    ∧ assocGet (sbRun c3Trace c3Init).cache "http://a.test" =
        some { url := "http://a.test", status := "unsafe", type := some "MALWARE",
               cache_duration := some "300" } := by
  exact ⟨by decide, by decide⟩

/-- C3 (amended): a `check` caller enqueues a url for external lookup only
when the url misses the cache at the moment it is scanned — a cached verdict
(cache entries never expire) makes the scan step a pure no-op on the queue —
but deduplication is only against the cache, so concurrent callers that scan
a still-uncached url before its verdict lands may each enqueue it, and
multiple external batch lookups for the same URL can then occur. -/
theorem cached_url_never_enqueued
    (s : SBState) (i : Nat) (c : CallerState) (u : String) (rest : List String)
    (hc : s.callers.get? i = some c) (hp : c.phase = CallerPhase.scanning)
    (hpend : c.pending = u :: rest) (hcached : (assocGet s.cache u).isSome = true) :
    sbStep (SBAction.scan i) s =
      some { s with callers := s.callers.set i { c with pending := rest } } := by
  have hc' : s.callers[i]? = some c := by
    rw [← List.get?_eq_getElem?]
    exact hc
  have hnone : ¬ (assocGet s.cache u = none) := by
    cases h : assocGet s.cache u
    · rw [h] at hcached
      simp at hcached
    · simp
  simp [sbStep, hc', hp, hpend, hnone]

/-- C3 witness: a caller scanning `http://a.test` while its verdict is
cached — the queue stays empty. -/
theorem cached_url_never_enqueued_witness :
    sbStep (SBAction.scan 0)
        ⟨[("http://a.test", ⟨"http://a.test", "safe", none, none⟩)], [],
          ConsumerPhase.idle, [⟨["http://a.test"], ["http://a.test"], CallerPhase.scanning⟩], []⟩ =
      some ⟨[("http://a.test", ⟨"http://a.test", "safe", none, none⟩)], [],
        ConsumerPhase.idle, [⟨["http://a.test"], [], CallerPhase.scanning⟩], []⟩ := by
  have h := cached_url_never_enqueued
    ⟨[("http://a.test", ⟨"http://a.test", "safe", none, none⟩)], [],
      ConsumerPhase.idle, [⟨["http://a.test"], ["http://a.test"], CallerPhase.scanning⟩], []⟩
    0 ⟨["http://a.test"], ["http://a.test"], CallerPhase.scanning⟩ "http://a.test" []
    rfl rfl rfl (by decide)
  simpa using h

/-- After the failed batch every scheduler action is disabled: the consumer
task is dead, nothing can be cached, and the only caller is waiting on a url
that is not cached. -/
lemma c4Stuck_no_step (a : SBAction) : sbStep a c4Stuck = none := by
  cases a with
  | scan i =>
      cases i with
      | zero => rfl
      | succ n => rfl
  | beginWait i =>
      cases i with
      | zero => rfl
      | succ n => rfl
  | finish i =>
      cases i with
      | zero => simp [sbStep, c4Stuck, assocGet]
      | succ n => rfl
  | take => rfl
  | deliver r => rfl

/-- Schedules cannot move the stuck state. -/
lemma c4Stuck_run_fixed (acts : List SBAction) : sbRun acts c4Stuck = c4Stuck := by
  induction acts with
  | nil => rfl
  | cons a rest ih =>
      rw [sbRun, c4Stuck_no_step a]
      exact ih

/-- C4: when the single external batch request fails (non-200, so
`_request_api` returns `None` and `_lookup_urls` raises `TypeError` inside
the background consumer), the consumer task dies, nothing is cached, and the
caller blocked in `check`'s wait loop remains waiting under every possible
continuation of the schedule — the failure neither raises to the caller nor
is retried, so a waiting resolve caller waits forever. -/
theorem failed_batch_strands_waiting_caller_forever :
    sbRun c4Trace c4Init = c4Stuck
    ∧ c4Stuck.consumer = ConsumerPhase.dead
    ∧ assocGet c4Stuck.cache "http://a.test" = none
    ∧ lookup_urls ["http://a.test"] none =
        Except.error "TypeError: NoneType object is not subscriptable"
    ∧ ∀ acts : List SBAction,
        (sbRun acts c4Stuck).callers.map CallerState.phase = [CallerPhase.waiting] := by
  refine ⟨by decide, rfl, rfl, rfl, ?_⟩
  intro acts
  rw [c4Stuck_run_fixed acts]
  rfl
